import Mathlib

/-!
Verification development for the trademark-opinion generation program (`app.py`).

The deterministic core of the program is embedded shallowly:

* `levenshtein_distance` — the dynamic-programming edit distance of
  `app.py` (`levenshtein_distance`, lines 326–346).
* `consistency_check` / `component_consistency_check` — the
  post-classification repair passes (lines 348–383 and 657–728).
* `validate_trademark_relevance` — the goods/services relevance
  pre-filter (lines 20–94).
* `keepLine` / `filter_formatted_opinion` — the deterministic table-row
  filter of `clean_and_format_opinion` (lines 291–318).
* The three analysis stages and `generate_trademark_opinion`
  (lines 386–1255).  Each stage wraps one call to an external LLM
  service; the outcome of that external call (transport error, empty
  choice list, no JSON block found by the regex search, JSON decode
  error, or a successfully parsed payload) is modelled by the sum type
  `LLMOutcome`, one constructor per branch of the Python code.  The
  stdlib services (`re`, `json`, the HTTP client) are modelled at this
  boundary; everything the repository's own code does with the outcome
  is embedded faithfully.

Python dictionaries with possibly-absent keys are modelled by structures
with `Option` fields; `d.get(k, v)` becomes `Option.getD`.
-/

set_option linter.unusedVariables false
set_option maxRecDepth 4000

namespace TrademarkApp

/-! ## StringDistance

The Python `levenshtein_distance` fills the classic DP table
`dp[i][j]` = distance between the length-`i` prefix of `a` and the
length-`j` prefix of `b`, with `dp[i][0] = i`, `dp[0][j] = j` and
`dp[i][j] = dp[i-1][j-1]` when `a[i-1] = b[j-1]`, else
`1 + min (dp[i-1][j]) (dp[i][j-1]) (dp[i-1][j-1])`.

`levRow` computes one row of that table from the previous row
(`prev` is the row for `xs`, the result is the row for `x :: xs`);
`levCore` iterates it.  The recursion here consumes characters from the
front, so `levCore xs ys` is the DP distance between the *reversals*
of the table coordinates; edit distance is invariant under
simultaneously reversing both strings, and the recurrence below is
character-for-character the one implemented by the Python loops. -/

def levRow (x : Char) (prev : List Char → Nat) : List Char → Nat
  | [] => prev [] + 1
  | y :: ys => if x = y then prev ys
      else 1 + min (prev (y :: ys)) (min (levRow x prev ys) (prev ys))

def levCore : List Char → List Char → Nat
  | [], ys => ys.length
  | x :: xs, ys => levRow x (levCore xs) ys

/-- Embedding of `levenshtein_distance` (app.py lines 326–346): the
early-exit `if a == b: return 0` followed by the DP table. -/
def levenshtein_distance (a b : String) : Nat :=
  if a = b then 0 else levCore a.data b.data

theorem levCore_nil_left (ys : List Char) : levCore [] ys = ys.length := rfl

theorem levCore_cons_cons (x y : Char) (xs ys : List Char) :
    levCore (x :: xs) (y :: ys) =
      if x = y then levCore xs ys
      else 1 + min (levCore xs (y :: ys)) (min (levCore (x :: xs) ys) (levCore xs ys)) := rfl

theorem levCore_nil_right (xs : List Char) : levCore xs [] = xs.length := by
  induction xs with
  | nil => rfl
  | cons x xs ih =>
      show levCore xs [] + 1 = xs.length + 1
      rw [ih]

theorem levCore_self (xs : List Char) : levCore xs xs = 0 := by
  induction xs with
  | nil => rfl
  | cons x xs ih => rw [levCore_cons_cons, if_pos rfl, ih]

theorem levCore_comm_aux :
    ∀ n, ∀ xs ys : List Char, xs.length + ys.length ≤ n →
      levCore xs ys = levCore ys xs := by
  intro n
  induction n with
  | zero =>
      intro xs ys h
      cases xs <;> cases ys <;> simp_all
  | succ n ih =>
      intro xs ys h
      cases xs with
      | nil => rw [levCore_nil_left, levCore_nil_right]
      | cons x xs =>
          cases ys with
          | nil => rw [levCore_nil_left, levCore_nil_right]
          | cons y ys =>
              simp only [List.length_cons] at h
              rw [levCore_cons_cons, levCore_cons_cons]
              by_cases hxy : x = y
              · subst hxy
                rw [if_pos rfl, if_pos rfl]
                exact ih xs ys (by omega)
              · rw [if_neg hxy, if_neg (Ne.symm hxy)]
                rw [ih xs (y :: ys) (by simp; omega),
                    ih (x :: xs) ys (by simp; omega),
                    ih xs ys (by omega)]
                omega

theorem levCore_comm (xs ys : List Char) : levCore xs ys = levCore ys xs :=
  levCore_comm_aux (xs.length + ys.length) xs ys le_rfl

/-- Growing or shrinking the second argument by one leading character
changes the distance by at most one (both directions), proved together
by strong induction on the combined length. -/
theorem levCore_cons_bounds_aux :
    ∀ n, ∀ xs ys : List Char, ∀ y : Char, xs.length + ys.length ≤ n →
      levCore xs (y :: ys) ≤ 1 + levCore xs ys ∧
      levCore xs ys ≤ 1 + levCore xs (y :: ys) := by
  intro n
  induction n with
  | zero =>
      intro xs ys y h
      cases xs <;> cases ys <;> simp_all [levCore_nil_left]
  | succ n ih =>
      intro xs ys y h
      cases xs with
      | nil => simp only [levCore_nil_left, List.length_cons]; omega
      | cons x xs =>
          simp only [List.length_cons] at h
          constructor
          · rw [levCore_cons_cons]
            by_cases hxy : x = y
            · subst hxy
              rw [if_pos rfl]
              -- distance xs ys ≤ 1 + distance (x :: xs) ys, via symmetry
              have := (ih ys xs x (by omega)).2
              rw [levCore_comm ys (x :: xs)] at this
              rw [levCore_comm ys xs] at this
              omega
            · rw [if_neg hxy]
              have h1 : min (levCore xs (y :: ys)) (min (levCore (x :: xs) ys) (levCore xs ys)) ≤
                  levCore (x :: xs) ys := by omega
              omega
          · rw [levCore_cons_cons]
            by_cases hxy : x = y
            · subst hxy
              rw [if_pos rfl]
              -- distance (x :: xs) ys ≤ 1 + distance xs ys, via symmetry
              have := (ih ys xs x (by omega)).1
              rw [levCore_comm ys (x :: xs)] at this
              rw [levCore_comm ys xs] at this
              omega
            · rw [if_neg hxy]
              -- bound against each component of the minimum
              have c1 : levCore (x :: xs) ys ≤ 2 + levCore xs (y :: ys) := by
                have d1 := (ih ys xs x (by omega)).1
                rw [levCore_comm ys (x :: xs), levCore_comm ys xs] at d1
                have d2 := (ih xs ys y (by omega)).2
                omega
              have c3 : levCore (x :: xs) ys ≤ 2 + levCore xs ys := by
                have d1 := (ih ys xs x (by omega)).1
                rw [levCore_comm ys (x :: xs), levCore_comm ys xs] at d1
                omega
              omega

theorem levCore_cons_right_le (xs ys : List Char) (y : Char) :
    levCore xs (y :: ys) ≤ 1 + levCore xs ys :=
  (levCore_cons_bounds_aux (xs.length + ys.length) xs ys y le_rfl).1

theorem le_levCore_cons_right (xs ys : List Char) (y : Char) :
    levCore xs ys ≤ 1 + levCore xs (y :: ys) :=
  (levCore_cons_bounds_aux (xs.length + ys.length) xs ys y le_rfl).2

theorem levCore_cons_left_le (xs ys : List Char) (x : Char) :
    levCore (x :: xs) ys ≤ 1 + levCore xs ys := by
  have := levCore_cons_right_le ys xs x
  rw [levCore_comm ys (x :: xs)] at this
  rw [levCore_comm ys xs] at this
  exact this

theorem le_levCore_cons_left (xs ys : List Char) (x : Char) :
    levCore xs ys ≤ 1 + levCore (x :: xs) ys := by
  have := le_levCore_cons_right ys xs x
  rw [levCore_comm ys (x :: xs)] at this
  rw [levCore_comm ys xs] at this
  exact this

/-! ### Edit scripts

`EditStep a b` holds when `b` arises from `a` by one insertion,
deletion or substitution; `EditPath a n b` when `b` arises from `a` by
`n` such steps.  `levCore` is exactly the length of a shortest edit
path, which yields the triangle inequality. -/

inductive EditStep : List Char → List Char → Prop where
  | ins (pre suf : List Char) (c : Char) : EditStep (pre ++ suf) (pre ++ c :: suf)
  | del (pre suf : List Char) (c : Char) : EditStep (pre ++ c :: suf) (pre ++ suf)
  | sub (pre suf : List Char) (c d : Char) : EditStep (pre ++ c :: suf) (pre ++ d :: suf)

inductive EditPath : List Char → Nat → List Char → Prop where
  | refl (a : List Char) : EditPath a 0 a
  | step {a b c : List Char} {n : Nat} :
      EditStep a b → EditPath b n c → EditPath a (n + 1) c

theorem EditStep.consStep {xs ys : List Char} (z : Char) (h : EditStep xs ys) :
    EditStep (z :: xs) (z :: ys) := by
  cases h with
  | ins pre suf c => exact EditStep.ins (z :: pre) suf c
  | del pre suf c => exact EditStep.del (z :: pre) suf c
  | sub pre suf c d => exact EditStep.sub (z :: pre) suf c d

theorem EditPath.consPath {xs ys : List Char} {n : Nat} (z : Char)
    (h : EditPath xs n ys) : EditPath (z :: xs) n (z :: ys) := by
  induction h with
  | refl a => exact EditPath.refl (z :: a)
  | step hs _ ih => exact EditPath.step (hs.consStep z) ih

theorem EditPath.trans {a b c : List Char} {m n : Nat}
    (h₁ : EditPath a m b) (h₂ : EditPath b n c) : EditPath a (m + n) c := by
  induction h₁ with
  | refl a => simpa using h₂
  | step hs _ ih =>
      have := EditPath.step hs (ih h₂)
      simpa [Nat.succ_add] using this

theorem EditPath.snoc {a b c : List Char} {n : Nat}
    (h₁ : EditPath a n b) (h₂ : EditStep b c) : EditPath a (n + 1) c := by
  induction h₁ with
  | refl a => exact EditPath.step h₂ (EditPath.refl _)
  | step hs _ ih => exact EditPath.step hs (ih h₂)

theorem editPath_nil_to (ys : List Char) : EditPath [] ys.length ys := by
  induction ys with
  | nil => exact EditPath.refl []
  | cons y ys ih =>
      exact EditPath.step (EditStep.ins [] [] y) (ih.consPath y)

theorem editPath_to_nil (xs : List Char) : EditPath xs xs.length [] := by
  induction xs with
  | nil => exact EditPath.refl []
  | cons x xs ih =>
      exact EditPath.step (EditStep.del [] xs x) ih

theorem exists_editPath_aux :
    ∀ n, ∀ xs ys : List Char, xs.length + ys.length ≤ n →
      EditPath xs (levCore xs ys) ys := by
  intro n
  induction n with
  | zero =>
      intro xs ys h
      cases xs <;> cases ys <;> simp_all
      exact EditPath.refl []
  | succ n ih =>
      intro xs ys h
      cases xs with
      | nil => rw [levCore_nil_left]; exact editPath_nil_to ys
      | cons x xs =>
          cases ys with
          | nil => rw [levCore_nil_right]; exact editPath_to_nil (x :: xs)
          | cons y ys =>
              simp only [List.length_cons] at h
              rw [levCore_cons_cons]
              by_cases hxy : x = y
              · subst hxy
                rw [if_pos rfl]
                exact (ih xs ys (by omega)).consPath x
              · rw [if_neg hxy]
                have hmin : min (levCore xs (y :: ys)) (min (levCore (x :: xs) ys) (levCore xs ys)) =
                      levCore xs (y :: ys) ∨
                    min (levCore xs (y :: ys)) (min (levCore (x :: xs) ys) (levCore xs ys)) =
                      levCore (x :: xs) ys ∨
                    min (levCore xs (y :: ys)) (min (levCore (x :: xs) ys) (levCore xs ys)) =
                      levCore xs ys := by omega
                rcases hmin with hm | hm | hm <;> rw [hm, Nat.add_comm 1]
                · exact EditPath.step (EditStep.del [] xs x) (ih xs (y :: ys) (by simp; omega))
                · exact (ih (x :: xs) ys (by simp; omega)).snoc (EditStep.ins [] ys y)
                · exact EditPath.step (EditStep.sub [] xs x y) ((ih xs ys (by omega)).consPath y)

theorem exists_editPath (xs ys : List Char) : EditPath xs (levCore xs ys) ys :=
  exists_editPath_aux (xs.length + ys.length) xs ys le_rfl

theorem levCore_le_editStep_aux :
    ∀ n, ∀ a b c : List Char, EditStep a b → a.length + b.length + c.length ≤ n →
      levCore a c ≤ 1 + levCore b c := by
  intro n
  induction n with
  | zero =>
      intro a b c hs hl
      cases hs <;> simp_all [List.length_append]
  | succ n ih =>
      intro a b c hs hl
      cases hs with
      | ins pre suf ch =>
          cases pre with
          | nil => simpa using le_levCore_cons_left suf c ch
          | cons p pre =>
              simp only [List.cons_append, List.length_cons, List.length_append] at hl ⊢
              cases c with
              | nil =>
                  rw [levCore_nil_right, levCore_nil_right]
                  simp only [List.length_cons, List.length_append]
                  omega
              | cons z zs =>
                  rw [levCore_cons_cons, levCore_cons_cons]
                  by_cases hpz : p = z
                  · rw [if_pos hpz, if_pos hpz]
                    exact ih _ _ _ (EditStep.ins pre suf ch)
                      (by simp [List.length_append] at hl ⊢; omega)
                  · rw [if_neg hpz, if_neg hpz]
                    have h1 := ih (pre ++ suf) (pre ++ ch :: suf) (z :: zs)
                      (EditStep.ins pre suf ch)
                      (by simp [List.length_append] at hl ⊢; omega)
                    have h2 := ih (p :: (pre ++ suf)) (p :: (pre ++ ch :: suf)) zs
                      ((EditStep.ins pre suf ch).consStep p)
                      (by simp [List.length_append] at hl ⊢; omega)
                    have h3 := ih (pre ++ suf) (pre ++ ch :: suf) zs
                      (EditStep.ins pre suf ch)
                      (by simp [List.length_append] at hl ⊢; omega)
                    omega
      | del pre suf ch =>
          cases pre with
          | nil => simpa using levCore_cons_left_le suf c ch
          | cons p pre =>
              simp only [List.cons_append, List.length_cons, List.length_append] at hl ⊢
              cases c with
              | nil =>
                  rw [levCore_nil_right, levCore_nil_right]
                  simp only [List.length_cons, List.length_append]
                  omega
              | cons z zs =>
                  rw [levCore_cons_cons, levCore_cons_cons]
                  by_cases hpz : p = z
                  · rw [if_pos hpz, if_pos hpz]
                    exact ih _ _ _ (EditStep.del pre suf ch)
                      (by simp [List.length_append] at hl ⊢; omega)
                  · rw [if_neg hpz, if_neg hpz]
                    have h1 := ih (pre ++ ch :: suf) (pre ++ suf) (z :: zs)
                      (EditStep.del pre suf ch)
                      (by simp [List.length_append] at hl ⊢; omega)
                    have h2 := ih (p :: (pre ++ ch :: suf)) (p :: (pre ++ suf)) zs
                      ((EditStep.del pre suf ch).consStep p)
                      (by simp [List.length_append] at hl ⊢; omega)
                    have h3 := ih (pre ++ ch :: suf) (pre ++ suf) zs
                      (EditStep.del pre suf ch)
                      (by simp [List.length_append] at hl ⊢; omega)
                    omega
      | sub pre suf ch d =>
          cases pre with
          | nil =>
              simp only [List.nil_append] at hl ⊢
              cases c with
              | nil =>
                  rw [levCore_nil_right, levCore_nil_right]
                  simp
              | cons z zs =>
                  rw [levCore_cons_cons, levCore_cons_cons]
                  by_cases hcz : ch = z <;> by_cases hdz : d = z
                  · rw [if_pos hcz, if_pos hdz]; omega
                  · rw [if_pos hcz, if_neg hdz]
                    have h1 := le_levCore_cons_right suf zs z
                    have h2 := le_levCore_cons_left suf zs d
                    omega
                  · rw [if_neg hcz, if_pos hdz]; omega
                  · rw [if_neg hcz, if_neg hdz]
                    have h2 := le_levCore_cons_left suf zs d
                    omega
          | cons p pre =>
              simp only [List.cons_append, List.length_cons, List.length_append] at hl ⊢
              cases c with
              | nil =>
                  rw [levCore_nil_right, levCore_nil_right]
                  simp only [List.length_cons, List.length_append]
                  omega
              | cons z zs =>
                  rw [levCore_cons_cons, levCore_cons_cons]
                  by_cases hpz : p = z
                  · rw [if_pos hpz, if_pos hpz]
                    exact ih _ _ _ (EditStep.sub pre suf ch d)
                      (by simp [List.length_append] at hl ⊢; omega)
                  · rw [if_neg hpz, if_neg hpz]
                    have h1 := ih (pre ++ ch :: suf) (pre ++ d :: suf) (z :: zs)
                      (EditStep.sub pre suf ch d)
                      (by simp [List.length_append] at hl ⊢; omega)
                    have h2 := ih (p :: (pre ++ ch :: suf)) (p :: (pre ++ d :: suf)) zs
                      ((EditStep.sub pre suf ch d).consStep p)
                      (by simp [List.length_append] at hl ⊢; omega)
                    have h3 := ih (pre ++ ch :: suf) (pre ++ d :: suf) zs
                      (EditStep.sub pre suf ch d)
                      (by simp [List.length_append] at hl ⊢; omega)
                    omega

theorem levCore_le_of_editPath {a : List Char} {n : Nat} {b : List Char}
    (h : EditPath a n b) : levCore a b ≤ n := by
  induction h with
  | refl a => simp [levCore_self]
  | step hs hp ih =>
      rename_i x y z m
      have := levCore_le_editStep_aux (x.length + y.length + z.length) x y z hs le_rfl
      omega

theorem levCore_triangle (a b c : List Char) :
    levCore a c ≤ levCore a b + levCore b c :=
  levCore_le_of_editPath ((exists_editPath a b).trans (exists_editPath b c))

theorem levenshtein_distance_eq (a b : String) :
    levenshtein_distance a b = levCore a.data b.data := by
  by_cases h : a = b
  · subst h; simp [levenshtein_distance, levCore_self]
  · simp [levenshtein_distance, h]

theorem levenshtein_distance_comm (a b : String) :
    levenshtein_distance a b = levenshtein_distance b a := by
  rw [levenshtein_distance_eq, levenshtein_distance_eq, levCore_comm]

theorem levenshtein_distance_triangle (a b c : String) :
    levenshtein_distance a c ≤ levenshtein_distance a b + levenshtein_distance b c := by
  rw [levenshtein_distance_eq, levenshtein_distance_eq, levenshtein_distance_eq]
  exact levCore_triangle a.data b.data c.data

/-! ## Data model

`MarkEntry` models one classified-mark dictionary as produced by the
model and consumed by `consistency_check` / `component_consistency_check`
(keys `mark`, `owner`, `goods_services`, `status`, `class`,
`class_match`, `goods_services_match`, `similarity_type`); every key may
be absent.  `klass` embeds the Python dictionary key `class`, which is a
reserved word in Lean. -/

structure MarkEntry where
  mark : Option String := none
  owner : Option String := none
  goods_services : Option String := none
  status : Option String := none
  klass : Option String := none
  class_match : Option Bool := none
  goods_services_match : Option Bool := none
  similarity_type : Option String := none
  deriving Repr, DecidableEq

/-- Input shape read by `consistency_check` (app.py lines 348–383): the
five bucket keys it may read, each defaulting to `[]` when absent
(`classification.get(key, [])`). -/
structure Classification where
  identical_marks : List MarkEntry := []
  one_two_letter_marks : List MarkEntry := []
  one_letter_marks : List MarkEntry := []
  two_letter_marks : List MarkEntry := []
  similar_marks : List MarkEntry := []
  deriving Repr, DecidableEq

/-- Output shape of `consistency_check`: the dictionary literal built at
app.py lines 350–355 has exactly these four keys. -/
structure CorrectedClassification where
  identical_marks : List MarkEntry := []
  one_letter_marks : List MarkEntry := []
  two_letter_marks : List MarkEntry := []
  similar_marks : List MarkEntry := []
  deriving Repr, DecidableEq

/-- Distance recomputed by the `consistency_check` loops:
`levenshtein_distance(proposed_mark, entry.get("mark", ""))`.  Note the
source passes `proposed_mark` and the candidate to
`levenshtein_distance` without lowercasing either. -/
def entryDiff (proposed_mark : String) (entry : MarkEntry) : Nat :=
  levenshtein_distance proposed_mark (entry.mark.getD "")

/-- One iteration of the reclassification loops of `consistency_check`
(app.py lines 358–368 and 371–381): append the entry to the bucket
selected by the recomputed distance. -/
def classifyEntry (proposed_mark : String) (corrected : CorrectedClassification)
    (entry : MarkEntry) : CorrectedClassification :=
  let diff := entryDiff proposed_mark entry
  if diff = 0 then
    { corrected with identical_marks := corrected.identical_marks ++ [entry] }
  else if diff = 1 then
    { corrected with one_letter_marks := corrected.one_letter_marks ++ [entry] }
  else if diff = 2 then
    { corrected with two_letter_marks := corrected.two_letter_marks ++ [entry] }
  else
    { corrected with similar_marks := corrected.similar_marks ++ [entry] }

/-- Embedding of `consistency_check` (app.py lines 348–383): start from
a copy of `similar_marks`, then run the loop over `identical_marks`,
then the loop over `one_two_letter_marks`.  The input keys
`one_letter_marks` and `two_letter_marks` are never read. -/
def consistency_check (proposed_mark : String) (classification : Classification) :
    CorrectedClassification :=
  let corrected : CorrectedClassification :=
    { identical_marks := [], one_letter_marks := [], two_letter_marks := [],
      similar_marks := classification.similar_marks }
  let afterIdentical :=
    classification.identical_marks.foldl (classifyEntry proposed_mark) corrected
  classification.one_two_letter_marks.foldl (classifyEntry proposed_mark) afterIdentical

theorem foldl_classifyEntry_spec (proposed_mark : String) (entries : List MarkEntry)
    (acc : CorrectedClassification) :
    (entries.foldl (classifyEntry proposed_mark) acc).identical_marks =
      acc.identical_marks ++ entries.filter (fun e => entryDiff proposed_mark e = 0) ∧
    (entries.foldl (classifyEntry proposed_mark) acc).one_letter_marks =
      acc.one_letter_marks ++ entries.filter (fun e => entryDiff proposed_mark e = 1) ∧
    (entries.foldl (classifyEntry proposed_mark) acc).two_letter_marks =
      acc.two_letter_marks ++ entries.filter (fun e => entryDiff proposed_mark e = 2) ∧
    (entries.foldl (classifyEntry proposed_mark) acc).similar_marks =
      acc.similar_marks ++ entries.filter (fun e => 2 < entryDiff proposed_mark e) := by
  induction entries generalizing acc with
  | nil => simp
  | cons e rest ih =>
      simp only [List.foldl_cons]
      obtain ⟨i1, i2, i3, i4⟩ := ih (classifyEntry proposed_mark acc e)
      rw [i1, i2, i3, i4]
      unfold classifyEntry
      by_cases h0 : entryDiff proposed_mark e = 0
      · simp [h0, List.filter_cons]
      · by_cases h1 : entryDiff proposed_mark e = 1
        · simp [h0, h1, List.filter_cons]
        · by_cases h2 : entryDiff proposed_mark e = 2
          · simp [h0, h1, h2, List.filter_cons]
          · have h3 : 2 < entryDiff proposed_mark e := by omega
            simp [h0, h1, h2, h3, List.filter_cons, Nat.lt_irrefl]

/-- Bucket-level characterization of `consistency_check`: the recomputed
buckets are the distance-0/1/2/..gt-2 filters of the concatenation of the
input `identical_marks` and `one_two_letter_marks` lists, and the input
`similar_marks` list is passed through in front of the demoted
entries. -/
theorem consistency_check_spec (proposed_mark : String) (c : Classification) :
    (consistency_check proposed_mark c).identical_marks =
      (c.identical_marks ++ c.one_two_letter_marks).filter
        (fun e => entryDiff proposed_mark e = 0) ∧
    (consistency_check proposed_mark c).one_letter_marks =
      (c.identical_marks ++ c.one_two_letter_marks).filter
        (fun e => entryDiff proposed_mark e = 1) ∧
    (consistency_check proposed_mark c).two_letter_marks =
      (c.identical_marks ++ c.one_two_letter_marks).filter
        (fun e => entryDiff proposed_mark e = 2) ∧
    (consistency_check proposed_mark c).similar_marks =
      c.similar_marks ++ (c.identical_marks ++ c.one_two_letter_marks).filter
        (fun e => 2 < entryDiff proposed_mark e) := by
  unfold consistency_check
  obtain ⟨a1, a2, a3, a4⟩ := foldl_classifyEntry_spec proposed_mark c.identical_marks
    { identical_marks := [], one_letter_marks := [], two_letter_marks := [],
      similar_marks := c.similar_marks }
  obtain ⟨b1, b2, b3, b4⟩ := foldl_classifyEntry_spec proposed_mark c.one_two_letter_marks
    (c.identical_marks.foldl (classifyEntry proposed_mark)
      { identical_marks := [], one_letter_marks := [], two_letter_marks := [],
        similar_marks := c.similar_marks })
  refine ⟨?_, ?_, ?_, ?_⟩ <;>
    simp_all [List.filter_append, List.append_assoc]

/-! ## Component analysis repair (`component_consistency_check`) -/

/-- One component dictionary inside section-two results (keys
`component`, `marks`, `distinctiveness`, each possibly absent). -/
structure ComponentEntry where
  component : Option String := none
  marks : Option (List MarkEntry) := none
  distinctiveness : Option String := none
  deriving Repr, DecidableEq

/-- The crowded-field dictionary of section-two results.  The
percentage is only ever defaulted (to 0) by the repository's own code,
never computed, so its numeric type is modelled as `Nat`. -/
structure CrowdedField where
  total_hits : Option Nat := none
  distinct_owner_percentage : Option Nat := none
  is_crowded : Option Bool := none
  explanation : Option String := none
  deriving Repr, DecidableEq

/-- Shape of section-two (component analysis) results. -/
structure ComponentResults where
  identified_coordinated_classes : Option (List String) := none
  coordinated_classes_explanation : Option String := none
  components : Option (List ComponentEntry) := none
  crowded_field : Option CrowdedField := none
  deriving Repr, DecidableEq

/-- Field backfill performed on each mark entry by
`component_consistency_check` (app.py lines 696–704): each of the seven
required fields, when absent, is set to `"Unknown"` for the string
fields and `False` for the two boolean match fields.  `similarity_type`
is not in the required-field list and is left untouched. -/
def backfillMarkEntry (e : MarkEntry) : MarkEntry :=
  { mark := some (e.mark.getD "Unknown"),
    owner := some (e.owner.getD "Unknown"),
    goods_services := some (e.goods_services.getD "Unknown"),
    status := some (e.status.getD "Unknown"),
    klass := some (e.klass.getD "Unknown"),
    class_match := some (e.class_match.getD false),
    goods_services_match := some (e.goods_services_match.getD false),
    similarity_type := e.similarity_type }

/-- Per-component backfill of `component_consistency_check` (app.py
lines 682–704); `i` is the 0-based loop index used for the default
component name `Component {i+1}`. -/
def backfillComponent (i : Nat) (comp : ComponentEntry) : ComponentEntry :=
  { component := some (comp.component.getD ("Component " ++ toString (i + 1))),
    marks := some ((comp.marks.getD []).map backfillMarkEntry),
    distinctiveness := some (comp.distinctiveness.getD "DESCRIPTIVE") }

/-- Crowded-field backfill of `component_consistency_check` (app.py
lines 706–726). -/
def backfillCrowdedField (cf : Option CrowdedField) : CrowdedField :=
  match cf with
  | none =>
      { total_hits := some 0, distinct_owner_percentage := some 0,
        is_crowded := some false,
        explanation := some "Unable to determine crowded field status" }
  | some cf =>
      { total_hits := some (cf.total_hits.getD 0),
        distinct_owner_percentage := some (cf.distinct_owner_percentage.getD 0),
        is_crowded := some (cf.is_crowded.getD false),
        explanation := some (cf.explanation.getD "Unable to determine crowded field status") }

/-- Embedding of `component_consistency_check` (app.py lines 657–728).
The `mark` argument is accepted and ignored, exactly as in the source
(which never reads it). -/
def component_consistency_check (mark : String) (results : ComponentResults) :
    ComponentResults :=
  { identified_coordinated_classes :=
      some (results.identified_coordinated_classes.getD []),
    coordinated_classes_explanation :=
      some (results.coordinated_classes_explanation.getD "No coordinated classes identified"),
    components := some ((results.components.getD []).mapIdx backfillComponent),
    crowded_field := some (backfillCrowdedField results.crowded_field) }

/-! ## Relevance pre-filter (`validate_trademark_relevance`) -/

/-- Word characters of the regex `\w` used by
`re.findall(r'\b\w+\b', ...)` (ASCII fragment): letters, digits and
underscore. -/
def isWordChar (c : Char) : Bool :=
  c.isAlphanum || c = '_'

/-- Maximal runs of word characters: the token list produced by
`re.findall(r'\b\w+\b', s)` on the character list of `s`.  The second
argument accumulates the current run in reverse. -/
def tokenizeAux : List Char → List Char → List String
  | [], run => if run.isEmpty then [] else [String.mk run.reverse]
  | c :: cs, run =>
      if isWordChar c then tokenizeAux cs (c :: run)
      else if run.isEmpty then tokenizeAux cs []
      else String.mk run.reverse :: tokenizeAux cs []

def tokenize (s : String) : List String :=
  tokenizeAux s.data []

/-- The fixed stop-word set of `is_similar_goods_services`
(app.py line 67). -/
def stop_words : List String :=
  ["and", "or", "the", "a", "an", "in", "on", "for", "of", "to", "with"]

/-- Keyword set of a lowercased description: the distinct `\w+` tokens
with the stop words removed (Python builds a `set`, modelled as a
duplicate-free list). -/
def keywordSet (lowered : String) : List String :=
  (tokenize lowered).dedup.filter (fun w => !(stop_words.contains w))

/-- Model of Python `str.lower()` (ASCII fragment): lowercase each
character. -/
def pyLower (s : String) : String := String.mk (s.data.map Char.toLower)

/-- Model of Python `str.strip()` with no arguments: remove leading and
trailing whitespace. -/
def pyStrip (s : String) : String :=
  String.mk (((s.data.dropWhile Char.isWhitespace).reverse.dropWhile Char.isWhitespace).reverse)

/-- Model of Python `str.split(sep)` for a one-character separator
(the only form the source uses): split at every occurrence of `sep`,
keeping empty fields.  The second argument accumulates the current
field in reverse. -/
def splitCharAux (sep : Char) : List Char → List Char → List String
  | [], cur => [String.mk cur.reverse]
  | c :: cs, cur =>
      if c = sep then String.mk cur.reverse :: splitCharAux sep cs []
      else splitCharAux sep cs (c :: cur)

def splitChar (sep : Char) (s : String) : List String := splitCharAux sep s.data []

/-- Model of Python `sep.join(parts)` for a one-character separator. -/
def intercalateChar (sep : Char) : List String → String
  | [] => ""
  | [s] => s
  | s :: rest => s ++ String.mk [sep] ++ intercalateChar sep rest

/-- Boolean substring containment: `needle in haystack` on Python
strings is contiguous-substring containment, i.e. the needle's
character list is an infix of the haystack's. -/
def containsSub (haystack needle : String) : Bool :=
  decide (needle.data <:+: haystack.data)

/-- Embedding of the inner `is_similar_goods_services`
(app.py lines 48–80).  The Python locals `existing_lower`,
`proposed_lower` (`.lower()` of the two descriptions) and
`existing_keywords`, `proposed_keywords` (the stop-word-free keyword
sets) are written inline as `pyLower ...` and `keywordSet (pyLower ...)`.
The float comparison `overlap_ratio > 0.3` with
`overlap_ratio = overlap / min(len(existing), len(proposed))` is
embedded exactly as the rational comparison `10 * overlap > 3 * min`. -/
def is_similar_goods_services (existing_goods proposed_goods : String) : Bool :=
  if pyLower existing_goods = pyLower proposed_goods then true
  else if containsSub (pyLower proposed_goods) (pyLower existing_goods) ||
      containsSub (pyLower existing_goods) (pyLower proposed_goods) then true
  else if 0 < (keywordSet (pyLower existing_goods)).length &&
      0 < (keywordSet (pyLower proposed_goods)).length then
    decide (10 * ((keywordSet (pyLower existing_goods)).filter
          (fun w => (keywordSet (pyLower proposed_goods)).contains w)).length >
      3 * min (keywordSet (pyLower existing_goods)).length
          (keywordSet (pyLower proposed_goods)).length)
  else false

/-- Embedding of the per-conflict loop of `validate_trademark_relevance`
(app.py lines 82–94): a conflict with a `goods_services` field is kept
iff `is_similar_goods_services` holds, and counted as excluded
otherwise; a conflict without the field is always kept. -/
def validate_trademark_relevance (conflicts : List MarkEntry)
    (proposed_goods_services : String) : List MarkEntry × Nat :=
  match conflicts with
  | [] => ([], 0)
  | conflict :: rest =>
      let prev := validate_trademark_relevance rest proposed_goods_services
      match conflict.goods_services with
      | some gs =>
          if is_similar_goods_services gs proposed_goods_services then
            (conflict :: prev.1, prev.2)
          else (prev.1, prev.2 + 1)
      | none => (conflict :: prev.1, prev.2)

/-- The keep-decision of the relevance filter for a single conflict. -/
def keepConflict (proposed_goods_services : String) (conflict : MarkEntry) : Bool :=
  match conflict.goods_services with
  | some gs => is_similar_goods_services gs proposed_goods_services
  | none => true

/-! ### String-typed conflicts input (`validate_trademark_relevance`,
app.py lines 33–41)

When `conflicts_array` arrives as a string the source first tries
`json.loads`; on `JSONDecodeError` it falls back to
`eval(conflicts_array)` whenever the stripped string starts with `[`,
else to `[]`.  `json.loads` is Python stdlib and is modelled at its
boundary: `jsonParsed` is its outcome (`none` = raised
`JSONDecodeError`).  Reaching `eval` executes the untrusted string as
code; that branch is modelled by the dedicated outcome
`StrParseOutcome.viaEval`. -/

inductive StrParseOutcome where
  | viaJson (conflicts : List MarkEntry)
  | viaEval
  | emptyFallback
  deriving Repr, DecidableEq

def parse_conflicts_string (raw : String) (jsonParsed : Option (List MarkEntry)) :
    StrParseOutcome :=
  match jsonParsed with
  | some conflicts => StrParseOutcome.viaJson conflicts
  | none =>
      if "[".data.isPrefixOf (pyStrip raw).data then StrParseOutcome.viaEval
      else StrParseOutcome.emptyFallback

/-! ## Table-row filter of `clean_and_format_opinion`
(app.py lines 291–318) -/

/-- Case-insensitive check used by the row filter:
`"true" in part.strip().lower()`. -/
def cellIsTrue (part : String) : Bool :=
  containsSub (pyLower (pyStrip part)) "true"

/-- Keep-decision of the row filter for a single line of the formatted
opinion (app.py lines 293–315): lines without `|` and `|`-lines with
fewer than 7 split fields pass through; lines containing `Class Match`
or `Trademark` (the header test) pass through; any other `|`-line is
kept iff `"true"` occurs in its third-from-last split field
(`parts[-3]`, which the source comment calls the Class Match column) or
its last split field (`parts[-1]`, which the source comment calls the
Goods & Services Match column). -/
def keepLine (line : String) : Bool :=
  if line.data.contains '|' then
    if 7 ≤ (splitChar '|' line).length then
      if containsSub line "Class Match" || containsSub line "Trademark" then true
      else
        cellIsTrue ((splitChar '|' line).getD ((splitChar '|' line).length - 3) "") ||
          cellIsTrue ((splitChar '|' line).getD ((splitChar '|' line).length - 1) "")
    else true
  else true

/-- The row filter applied to a whole formatted opinion: split into
lines, keep the lines `keepLine` accepts, and rejoin with newlines
(app.py lines 292–318). -/
def filter_formatted_opinion (formatted_opinion : String) : String :=
  intercalateChar '\n' ((splitChar '\n' formatted_opinion).filter keepLine)

/-! ## Analysis stages

Each stage's `try` block makes one LLM call and then branches on: an
exception during the call (`callError`), an empty `response.choices`
list (`noChoices`), the JSON-extraction regex finding nothing
(`noJsonBlock`), `json.loads` raising (`jsonError`), or a successfully
parsed payload (`parsed`).  The payload type is the stage's JSON
schema. -/

inductive LLMOutcome (α : Type) where
  | callError
  | noChoices
  | noJsonBlock
  | jsonError
  | parsed (payload : α)
  deriving Repr, DecidableEq

/-- An outcome that took any of the four failure branches. -/
def LLMOutcome.isFail {α : Type} : LLMOutcome α → Bool
  | .parsed _ => false
  | _ => true

/-- The crowded-field block of the section-one default dictionaries
(app.py lines 606–610 etc.). -/
structure S1CrowdedField where
  is_crowded : Bool := false
  percentage : Nat := 0
  explanation : String := ""
  deriving Repr, DecidableEq

/-- Return shape of `section_one_analysis`: on success it is the
4-key dictionary produced by `consistency_check` (so the coordinated
class keys and `crowded_field` are *absent*); on failure it is the
7-key default dictionary.  Absent keys are `none`. -/
structure SectionOneOutput where
  identified_coordinated_classes : Option (List String) := none
  coordinated_classes_explanation : Option String := none
  identical_marks : List MarkEntry := []
  one_letter_marks : List MarkEntry := []
  two_letter_marks : List MarkEntry := []
  similar_marks : List MarkEntry := []
  crowded_field : Option S1CrowdedField := none
  deriving Repr, DecidableEq

/-- The section-one failure default (app.py lines 599–654): the same
dictionary is returned on missing JSON block, JSON decode error and
empty choices (placeholder explanations), and with different
explanation strings from the `except` handler. -/
def sectionOneDefault (coordErr crowdErr : String) : SectionOneOutput :=
  { identified_coordinated_classes := some [],
    coordinated_classes_explanation := some coordErr,
    identical_marks := [],
    one_letter_marks := [],
    two_letter_marks := [],
    similar_marks := [],
    crowded_field := some { is_crowded := false, percentage := 0, explanation := crowdErr } }

/-- Embedding of `section_one_analysis` (app.py lines 386–654).  The
prompt-building inputs are accepted (and, as far as the deterministic
result is concerned, ignored, since they only shape the LLM messages);
on a parsed payload the stage applies `consistency_check` and returns
its result unchanged. -/
def section_one_analysis (mark : String) (class_number : String)
    (goods_services : String) (relevant_conflicts : List MarkEntry)
    (llm : LLMOutcome Classification) : SectionOneOutput :=
  match llm with
  | .parsed raw_results =>
      let corrected := consistency_check mark raw_results
      { identified_coordinated_classes := none,
        coordinated_classes_explanation := none,
        identical_marks := corrected.identical_marks,
        one_letter_marks := corrected.one_letter_marks,
        two_letter_marks := corrected.two_letter_marks,
        similar_marks := corrected.similar_marks,
        crowded_field := none }
  | .callError =>
      sectionOneDefault "Error occurred during analysis" "Error occurred during analysis"
  | _ =>
      sectionOneDefault "Unable to identify coordinated classes"
        "Unable to determine crowded field status"

/-- The section-two failure default (app.py lines 871–918); note the
trailing period on the crowded-field explanation, unlike section one. -/
def sectionTwoDefault (coordErr crowdErr : String) : ComponentResults :=
  { identified_coordinated_classes := some [],
    coordinated_classes_explanation := some coordErr,
    components := some [],
    crowded_field := some
      { total_hits := some 0, distinct_owner_percentage := some 0,
        is_crowded := some false, explanation := some crowdErr } }

/-- Embedding of `section_two_analysis` (app.py lines 731–918): on a
parsed payload the stage applies `component_consistency_check` and
returns its result unchanged. -/
def section_two_analysis (mark : String) (class_number : String)
    (goods_services : String) (relevant_conflicts : List MarkEntry)
    (llm : LLMOutcome ComponentResults) : ComponentResults :=
  match llm with
  | .parsed raw_results => component_consistency_check mark raw_results
  | .callError =>
      sectionTwoDefault "Error occurred during analysis" "Error occurred during analysis"
  | _ =>
      sectionTwoDefault "Unable to identify coordinated classes"
        "Unable to determine crowded field status."

/-- One owner block of the aggressive-enforcement part of section-three
results. -/
structure EnforcementOwner where
  name : String := ""
  enforcement_patterns : List String := []
  deriving Repr, DecidableEq

structure AggressiveEnforcement where
  owners : List EnforcementOwner := []
  enforcement_landscape : List String := []
  deriving Repr, DecidableEq

/-- The `overall_risk` block of section-three results. -/
structure OverallRisk where
  level_registration : String := ""
  explanation_registration : String := ""
  level_use : String := ""
  explanation_use : String := ""
  crowded_field_percentage : Nat := 0
  crowded_field_impact : String := ""
  deriving Repr, DecidableEq

/-- Shape of section-three (risk assessment) results, per the JSON
schema in the section-three prompt (app.py lines 994–1027). -/
structure SectionThreeResults where
  likelihood_of_confusion : List String := []
  descriptiveness : List String := []
  aggressive_enforcement : AggressiveEnforcement := {}
  overall_risk : OverallRisk := {}
  deriving Repr, DecidableEq

/-- The skip-section-two scan of `section_three_analysis` (app.py lines
937–951): walk `similar_marks` and stop at the first entry whose
`similarity_type` is `Phonetic` or `Semantic` and whose `class_match`
is truthy; the recorded reason distinguishes whether
`goods_services_match` also held.  Returns `(skip_section_two,
skip_reason)`. -/
def skipScan : List MarkEntry → Bool × String
  | [] => (false, "")
  | e :: rest =>
      if e.similarity_type = some "Phonetic" ∨ e.similarity_type = some "Semantic" then
        if e.class_match.getD false && e.goods_services_match.getD false then
          (true, "Found a Phonetic or Semantic similar mark with both class match and goods/services match")
        else if e.class_match.getD false then
          (true, "Found a Phonetic or Semantic similar mark with coordinated class match")
        else skipScan rest
      else skipScan rest

/-- The section-three failure default (app.py lines 1101–1168): all
four failure branches return this dictionary, whose risk levels depend
only on the skip flag (`MEDIUM-HIGH` when set, `MEDIUM-LOW`
otherwise). -/
def sectionThreeDefault (skip : Bool × String) : SectionThreeResults :=
  { likelihood_of_confusion := ["Unable to determine likelihood of confusion."],
    descriptiveness := ["Unable to determine descriptiveness."],
    aggressive_enforcement :=
      { owners := [],
        enforcement_landscape := ["Unable to determine enforcement patterns."] },
    overall_risk :=
      { level_registration := if skip.1 then "MEDIUM-HIGH" else "MEDIUM-LOW",
        explanation_registration :=
          if skip.1 then "Risk level set to MEDIUM-HIGH due to " ++ skip.2
          else "Unable to determine precise risk level.",
        level_use := if skip.1 then "MEDIUM-HIGH" else "MEDIUM-LOW",
        explanation_use :=
          if skip.1 then "Risk level set to MEDIUM-HIGH due to " ++ skip.2
          else "Unable to determine precise risk level.",
        crowded_field_percentage := 0,
        crowded_field_impact :=
          if skip.1 then "Section II analysis was skipped due to high-risk marks in Section I"
          else "Unable to determine crowded field impact" } }

/-- Embedding of `section_three_analysis` (app.py lines 921–1168).  The
skip flag and `section_two_results` influence only the prompt text sent
to the LLM and the failure default; on a successful parse the model's
payload is returned as-is (`return json.loads(json_str)`, line 1099) —
no floor, ceiling or other deterministic adjustment is applied to the
model-proposed risk levels. -/
def section_three_analysis (mark : String) (class_number : String)
    (goods_services : String) (section_one_results : SectionOneOutput)
    (section_two_results : Option ComponentResults)
    (llm : LLMOutcome SectionThreeResults) : SectionThreeResults :=
  let skip := skipScan section_one_results.similar_marks
  match llm with
  | .parsed payload => payload
  | _ => sectionThreeDefault skip

/-- The structured opinion assembled by `generate_trademark_opinion`
(app.py lines 1196–1204). -/
structure OpinionStructure where
  proposed_name : String
  proposed_class : String
  proposed_goods_services : String
  excluded_count : Nat
  section_one : SectionOneOutput
  section_two : ComponentResults
  section_three : SectionThreeResults
  deriving Repr, DecidableEq

/-- Embedding of `generate_trademark_opinion` (app.py lines 1170–1255)
up to the assembly of `opinion_structure`: run the relevance pre-filter,
then sections I, II and III in sequence.  Note section II is invoked
unconditionally (line 1190) before `section_three_analysis` computes
its skip flag, and its results are passed to section III (line 1193).
The `llm` arguments carry the outcomes of the three stage calls. -/
def generate_trademark_opinion (conflicts_array : List MarkEntry)
    (proposed_name proposed_class proposed_goods_services : String)
    (llm1 : LLMOutcome Classification) (llm2 : LLMOutcome ComponentResults)
    (llm3 : LLMOutcome SectionThreeResults) : OpinionStructure :=
  let filtered := validate_trademark_relevance conflicts_array proposed_goods_services
  let relevant_conflicts := filtered.1
  let excluded_count := filtered.2
  let section_one_results :=
    section_one_analysis proposed_name proposed_class proposed_goods_services
      relevant_conflicts llm1
  let section_two_results :=
    section_two_analysis proposed_name proposed_class proposed_goods_services
      relevant_conflicts llm2
  let section_three_results :=
    section_three_analysis proposed_name proposed_class proposed_goods_services
      section_one_results (some section_two_results) llm3
  { proposed_name := proposed_name,
    proposed_class := proposed_class,
    proposed_goods_services := proposed_goods_services,
    excluded_count := excluded_count,
    section_one := section_one_results,
    section_two := section_two_results,
    section_three := section_three_results }

/-! ## Claim theorems -/

/-- Claim C9: `levenshtein_distance` is a total function into `Nat`
(hence non-negative) over all pairs of finite strings, with
`levenshtein_distance a a = 0`, symmetry, the triangle inequality, and
the concrete values `levenshtein_distance "CAT" "CAR" = 1` and
`levenshtein_distance "CAT" "DOG" = 3`. -/
theorem claim_C9_levenshtein_contract :
    (∀ a : String, levenshtein_distance a a = 0) ∧
    (∀ a b : String, levenshtein_distance a b = levenshtein_distance b a) ∧
    (∀ a b c : String,
        levenshtein_distance a c ≤ levenshtein_distance a b + levenshtein_distance b c) ∧
    levenshtein_distance "CAT" "CAR" = 1 ∧
    levenshtein_distance "CAT" "DOG" = 3 := by
  refine ⟨?_, levenshtein_distance_comm, levenshtein_distance_triangle, ?_, ?_⟩
  · intro a; simp [levenshtein_distance]
  · decide
  · decide

/-- Entries appearing in sample classifications used by concrete
theorems: each has only a `mark` field, like a minimal model output. -/
def entryWith (m : String) : MarkEntry := { mark := some m }

/-- Sample raw classification: the model placed `cat` (lowercase) in
the identical bucket for proposed mark `CAT`. -/
def clCaseCl : Classification := { identical_marks := [entryWith "cat"] }

/-- Claim C2 counterexample: `consistency_check` recomputes the
distance *case-sensitively*.  For proposed mark `CAT` and a model
entry `cat`, the case-insensitive distance (after `.lower()`, as the
claim and §4.4 of the spec prescribe) is 0, so the claim requires the
entry to stay in the identical bucket; the code computes
`levenshtein_distance("CAT", "cat") = 3` and demotes it to
`similar_marks`. -/
theorem claim_C2_counterexample :
    levenshtein_distance (pyLower "CAT") (pyLower "cat") = 0 ∧
    levenshtein_distance "CAT" "cat" = 3 ∧
    (consistency_check "CAT" clCaseCl).identical_marks = [] ∧
    (consistency_check "CAT" clCaseCl).similar_marks = [entryWith "cat"] := by
  refine ⟨by decide, by decide, ?_, ?_⟩ <;> decide

/-- Claim C2 (amended): after `consistency_check`, every entry the
model placed in `identical_marks` or `one_two_letter_marks` is
reassigned by the recomputed **case-sensitive** distance (0 →
identical, 1 → one_letter, 2 → two_letter, > 2 → similar), entries
already in `similar_marks` pass through unchanged (in front of any
demoted entries), every identical entry has recomputed distance 0,
every one_letter entry exactly 1, every two_letter entry exactly 2,
and no entry appears in two of the three recomputed buckets (an entry
can additionally appear in `similar_marks` only if the input already
contained it there). -/
theorem claim_C2_amended (p : String) (c : Classification) :
    (consistency_check p c).identical_marks =
      (c.identical_marks ++ c.one_two_letter_marks).filter (fun e => entryDiff p e = 0) ∧
    (consistency_check p c).one_letter_marks =
      (c.identical_marks ++ c.one_two_letter_marks).filter (fun e => entryDiff p e = 1) ∧
    (consistency_check p c).two_letter_marks =
      (c.identical_marks ++ c.one_two_letter_marks).filter (fun e => entryDiff p e = 2) ∧
    (consistency_check p c).similar_marks =
      c.similar_marks ++
        (c.identical_marks ++ c.one_two_letter_marks).filter (fun e => 2 < entryDiff p e) ∧
    (∀ e ∈ (consistency_check p c).identical_marks, entryDiff p e = 0) ∧
    (∀ e ∈ (consistency_check p c).one_letter_marks, entryDiff p e = 1) ∧
    (∀ e ∈ (consistency_check p c).two_letter_marks, entryDiff p e = 2) ∧
    (∀ e ∈ (consistency_check p c).identical_marks,
        e ∉ (consistency_check p c).one_letter_marks ∧
        e ∉ (consistency_check p c).two_letter_marks) ∧
    (∀ e ∈ (consistency_check p c).one_letter_marks,
        e ∉ (consistency_check p c).two_letter_marks) := by
  obtain ⟨h0, h1, h2, h3⟩ := consistency_check_spec p c
  have m0 : ∀ e ∈ (consistency_check p c).identical_marks, entryDiff p e = 0 := by
    intro e he; rw [h0] at he
    simpa using (List.mem_filter.mp he).2
  have m1 : ∀ e ∈ (consistency_check p c).one_letter_marks, entryDiff p e = 1 := by
    intro e he; rw [h1] at he
    simpa using (List.mem_filter.mp he).2
  have m2 : ∀ e ∈ (consistency_check p c).two_letter_marks, entryDiff p e = 2 := by
    intro e he; rw [h2] at he
    simpa using (List.mem_filter.mp he).2
  refine ⟨h0, h1, h2, h3, m0, m1, m2, ?_, ?_⟩
  · intro e he
    refine ⟨fun hc => ?_, fun hc => ?_⟩
    · have := m0 e he; have := m1 e hc; omega
    · have := m0 e he; have := m2 e hc; omega
  · intro e he hc
    have := m1 e he; have := m2 e hc; omega

/-- Sample classification with one entry at each recomputed distance,
used to instantiate `claim_C2_amended` concretely. -/
def clMixed : Classification :=
  { identical_marks := [entryWith "CAT", entryWith "CAR", entryWith "DOG"],
    one_two_letter_marks := [entryWith "CT", entryWith "CR"],
    similar_marks := [entryWith "KITTEN"] }

/-- Witness for `claim_C2_amended` at a concrete input: for proposed
mark `CAT`, the entry `CAR` lands in (and only in) `one_letter_marks`
and its recomputed distance is 1. -/
theorem claim_C2_amended_witness :
    entryWith "CAR" ∈ (consistency_check "CAT" clMixed).one_letter_marks ∧
    entryDiff "CAT" (entryWith "CAR") = 1 ∧
    entryWith "CAR" ∉ (consistency_check "CAT" clMixed).two_letter_marks := by
  have h := claim_C2_amended "CAT" clMixed
  have hm : entryWith "CAR" ∈ (consistency_check "CAT" clMixed).one_letter_marks := by decide
  exact ⟨hm, h.2.2.2.2.2.1 (entryWith "CAR") hm, h.2.2.2.2.2.2.2.2 (entryWith "CAR") hm⟩

/-- Partition step used by claim C10: filtering a list by the four
mutually-exclusive, exhaustive distance tests and concatenating the
results is a permutation of the list. -/
theorem filter_partition_perm (p : String) (l : List MarkEntry) :
    (l.filter (fun e => entryDiff p e = 0) ++ l.filter (fun e => entryDiff p e = 1) ++
      l.filter (fun e => entryDiff p e = 2) ++
      l.filter (fun e => 2 < entryDiff p e)).Perm l := by
  rw [List.perm_iff_count]
  intro a
  have hzero : ∀ q : MarkEntry → Bool, q a = false → List.count a (l.filter q) = 0 := by
    intro q hq
    refine List.count_eq_zero.mpr (fun hmem => ?_)
    have h2 := (List.mem_filter.mp hmem).2
    rw [hq] at h2
    cases h2
  have hcnt : ∀ q : MarkEntry → Bool, q a = true →
      List.count a (l.filter q) = List.count a l := by
    intro q hq
    exact List.count_filter hq
  simp only [List.count_append]
  by_cases h0 : entryDiff p a = 0
  · rw [hcnt (fun e => decide (entryDiff p e = 0)) (by simp [h0]),
      hzero (fun e => decide (entryDiff p e = 1)) (by simp [h0]),
      hzero (fun e => decide (entryDiff p e = 2)) (by simp [h0]),
      hzero (fun e => decide (2 < entryDiff p e)) (by simp [h0])]
    omega
  · by_cases h1 : entryDiff p a = 1
    · rw [hcnt (fun e => decide (entryDiff p e = 1)) (by simp [h1]),
        hzero (fun e => decide (entryDiff p e = 0)) (by simp [h0]),
        hzero (fun e => decide (entryDiff p e = 2)) (by simp [h1]),
        hzero (fun e => decide (2 < entryDiff p e)) (by simp [h1])]
      omega
    · by_cases h2 : entryDiff p a = 2
      · rw [hcnt (fun e => decide (entryDiff p e = 2)) (by simp [h2]),
          hzero (fun e => decide (entryDiff p e = 0)) (by simp [h0]),
          hzero (fun e => decide (entryDiff p e = 1)) (by simp [h1]),
          hzero (fun e => decide (2 < entryDiff p e)) (by simp [h2])]
        omega
      · have h3 : 2 < entryDiff p a := by omega
        rw [hcnt (fun e => decide (2 < entryDiff p e)) (by simp [h3]),
          hzero (fun e => decide (entryDiff p e = 0)) (by simp [h0]),
          hzero (fun e => decide (entryDiff p e = 1)) (by simp [h1]),
          hzero (fun e => decide (entryDiff p e = 2)) (by simp [h2])]
        omega

/-- Claim C10: `consistency_check` conserves and partitions exactly the
entries it reads.  First conjunct: the multiset of entries across the
four output buckets is exactly the multiset of the input
`identical_marks`, `one_two_letter_marks` and `similar_marks` entries
(each input entry occurrence appears exactly once, unmodified, across
the output, and nothing else appears).  Second conjunct: the output is
unchanged when the input `one_letter_marks` and `two_letter_marks`
lists are replaced by `[]` — those two input lists are never read, so
their entries appear in no output bucket. -/
theorem claim_C10_conservation (p : String) (c : Classification) :
    ((consistency_check p c).identical_marks ++ (consistency_check p c).one_letter_marks ++
      (consistency_check p c).two_letter_marks ++
      (consistency_check p c).similar_marks).Perm
      (c.identical_marks ++ c.one_two_letter_marks ++ c.similar_marks) ∧
    consistency_check p c =
      consistency_check p
        { identical_marks := c.identical_marks,
          one_two_letter_marks := c.one_two_letter_marks,
          one_letter_marks := [],
          two_letter_marks := [],
          similar_marks := c.similar_marks } := by
  constructor
  · obtain ⟨h0, h1, h2, h3⟩ := consistency_check_spec p c
    rw [h0, h1, h2, h3]
    rw [List.perm_iff_count]
    intro a
    have hpart := List.perm_iff_count.mp
      (filter_partition_perm p (c.identical_marks ++ c.one_two_letter_marks)) a
    simp only [List.count_append] at hpart ⊢
    omega
  · rfl

/-- A mark-entry dictionary with no keys at all. -/
def emptyEntry : MarkEntry := {}

/-- Claim C5 counterexample: the hit-analysis repairer
`consistency_check` (one of the two functions the claim is about)
performs no field backfilling.  An identical-bucket entry carrying only
a `mark` key leaves repair still missing `owner`, `class_match` and
every other required field, contradicting "no entry leaves repair with
a required field absent". -/
theorem claim_C5_counterexample :
    (consistency_check "MARK" { identical_marks := [entryWith "MARK"] }).identical_marks =
      [entryWith "MARK"] ∧
    (entryWith "MARK").owner = none ∧
    (entryWith "MARK").goods_services = none ∧
    (entryWith "MARK").status = none ∧
    (entryWith "MARK").klass = none ∧
    (entryWith "MARK").class_match = none ∧
    (entryWith "MARK").goods_services_match = none := by
  refine ⟨?_, rfl, rfl, rfl, rfl, rfl, rfl⟩
  decide

/-- Claim C5 (amended): only the component-stage repairer
`component_consistency_check` backfills missing required fields, and it
does so for every mark entry of every component it returns: the string
fields `mark`, `owner`, `goods_services`, `status` and `class` default
to `"Unknown"` and the boolean fields `class_match` and
`goods_services_match` default to `False` (present values are kept);
the hit-analysis repairer `consistency_check` moves entries between
buckets unmodified, leaving absent fields absent. -/
theorem claim_C5_amended (mark : String) (results : ComponentResults) :
    (∀ comp ∈ ((component_consistency_check mark results).components.getD []),
        ∀ e ∈ comp.marks.getD [],
          e.mark.isSome ∧ e.owner.isSome ∧ e.goods_services.isSome ∧
          e.status.isSome ∧ e.klass.isSome ∧ e.class_match.isSome ∧
          e.goods_services_match.isSome) ∧
    (∀ e : MarkEntry,
        (backfillMarkEntry e).mark = some (e.mark.getD "Unknown") ∧
        (backfillMarkEntry e).owner = some (e.owner.getD "Unknown") ∧
        (backfillMarkEntry e).goods_services = some (e.goods_services.getD "Unknown") ∧
        (backfillMarkEntry e).status = some (e.status.getD "Unknown") ∧
        (backfillMarkEntry e).klass = some (e.klass.getD "Unknown") ∧
        (backfillMarkEntry e).class_match = some (e.class_match.getD false) ∧
        (backfillMarkEntry e).goods_services_match = some (e.goods_services_match.getD false)) := by
  constructor
  · intro comp hcomp e he
    have hmem : comp ∈ (results.components.getD []).mapIdx backfillComponent := by
      simpa [component_consistency_check] using hcomp
    rw [List.mapIdx_eq_ofFn, List.mem_ofFn] at hmem
    obtain ⟨i, hi⟩ := hmem
    rw [← hi] at he
    simp only [backfillComponent, Option.getD_some] at he
    rw [List.mem_map] at he
    obtain ⟨e₀, _, rfl⟩ := he
    simp [backfillMarkEntry]
  · intro e
    simp [backfillMarkEntry]

/-- Sample component-analysis results used to instantiate
`claim_C5_amended`: one component whose single mark entry has no keys
at all. -/
def resWitness : ComponentResults := { components := some [{ marks := some [emptyEntry] }] }

/-- Witness for `claim_C5_amended` at a concrete input: the keyless
entry of `resWitness`, once repaired, has every required field present;
its backfilled form carries `owner = "Unknown"` and
`class_match = False`. -/
theorem claim_C5_amended_witness :
    (backfillMarkEntry emptyEntry).owner.isSome = true ∧
    (backfillMarkEntry emptyEntry).owner = some "Unknown" ∧
    (backfillMarkEntry emptyEntry).class_match = some false := by
  have h := claim_C5_amended "X" resWitness
  have hfields := h.1 (backfillComponent 0 { marks := some [emptyEntry] })
    (by decide) (backfillMarkEntry emptyEntry) (by decide)
  have hvals := h.2 emptyEntry
  exact ⟨hfields.2.1, hvals.2.1, hvals.2.2.2.2.2.1⟩

/-- Claim C6: the relevance filter keeps a candidate iff it lacks a
`goods_services` field (fail-open) or its goods/services matches the
proposed text by case-insensitive equality, substring containment in
either direction, or keyword-overlap ratio exceeding 0.30 after
stop-word removal (ratio = shared keywords over the smaller keyword-set
size, so the comparison is `10 * overlap > 3 * min`); the kept list is
exactly the in-order filter of the input by that predicate, and
`excluded_count` is the number of dropped candidates. -/
theorem claim_C6_relevance_filter (conflicts : List MarkEntry)
    (proposed_goods_services : String) :
    (validate_trademark_relevance conflicts proposed_goods_services).1 =
      conflicts.filter (keepConflict proposed_goods_services) ∧
    (validate_trademark_relevance conflicts proposed_goods_services).2 =
      (conflicts.filter (fun c => !keepConflict proposed_goods_services c)).length ∧
    (∀ c : MarkEntry, keepConflict proposed_goods_services c = true ↔
        (c.goods_services = none ∨
         ∃ gs, c.goods_services = some gs ∧
           (pyLower gs = pyLower proposed_goods_services ∨
            containsSub (pyLower proposed_goods_services) (pyLower gs) = true ∨
            containsSub (pyLower gs) (pyLower proposed_goods_services) = true ∨
            (0 < (keywordSet (pyLower gs)).length ∧
             0 < (keywordSet (pyLower proposed_goods_services)).length ∧
             3 * min (keywordSet (pyLower gs)).length
                 (keywordSet (pyLower proposed_goods_services)).length <
               10 * ((keywordSet (pyLower gs)).filter
                 (fun w => (keywordSet (pyLower proposed_goods_services)).contains w)).length)))) := by
  refine ⟨?_, ?_, ?_⟩
  · induction conflicts with
    | nil => rfl
    | cons c rest ih =>
        simp only [validate_trademark_relevance, List.filter_cons]
        cases hgs : c.goods_services with
        | none => simp [keepConflict, hgs, ih]
        | some gs =>
            by_cases hsim : is_similar_goods_services gs proposed_goods_services <;>
              simp [keepConflict, hgs, hsim, ih]
  · induction conflicts with
    | nil => rfl
    | cons c rest ih =>
        simp only [validate_trademark_relevance, List.filter_cons]
        cases hgs : c.goods_services with
        | none => simp [keepConflict, hgs, ih]
        | some gs =>
            by_cases hsim : is_similar_goods_services gs proposed_goods_services <;>
              simp [keepConflict, hgs, hsim, ih]
  · intro c
    cases hgs : c.goods_services with
    | none => simp [keepConflict, hgs]
    | some gs =>
        simp only [keepConflict, hgs, Option.some.injEq, reduceCtorEq, false_or,
          exists_eq_left']
        by_cases h1 : pyLower gs = pyLower proposed_goods_services
        · simp [is_similar_goods_services, h1]
        · cases hB : containsSub (pyLower proposed_goods_services) (pyLower gs) with
          | true => simp [is_similar_goods_services, h1, hB]
          | false =>
              cases hC : containsSub (pyLower gs) (pyLower proposed_goods_services) with
              | true => simp [is_similar_goods_services, h1, hB, hC]
              | false =>
                  by_cases hE : 0 < (keywordSet (pyLower gs)).length <;>
                    by_cases hP : 0 < (keywordSet (pyLower proposed_goods_services)).length <;>
                    simp [is_similar_goods_services, h1, hB, hC, hE, hP]

/-- Sample witness conflicts for the relevance filter: the first
candidate's goods/services contain the proposed text, the second shares
no keywords with it. -/
def conflictsWitness : List MarkEntry :=
  [{ mark := some "AQUASHINE", goods_services := some "hair shampoo" },
   { mark := some "LUBRIMAX", goods_services := some "industrial lubricants" }]

/-- Witness for `claim_C6_relevance_filter` at a concrete input: for
proposed goods `shampoo`, the `hair shampoo` candidate is kept (by
substring containment), the `industrial lubricants` candidate is
dropped, and `excluded_count` is 1. -/
theorem claim_C6_relevance_filter_witness :
    (validate_trademark_relevance conflictsWitness "shampoo").1 =
      [{ mark := some "AQUASHINE", goods_services := some "hair shampoo" }] ∧
    (validate_trademark_relevance conflictsWitness "shampoo").2 = 1 := by
  have h := claim_C6_relevance_filter conflictsWitness "shampoo"
  rw [h.1, h.2.1]
  constructor <;> decide

/-- Rows and header of a rendered conflict table in the exact template
shape of `clean_and_format_opinion`
(`| mark | owner | goods | status | class | Class Match | G&S Match |`). -/
def rowHeaderC7 : String :=
  "| Trademark | Owner | Goods & Services | Status | Class | Class Match | Goods & Services Match |"

def rowSepC7 : String :=
  "|------------|--------|------------------|--------|------|-------------|------------------------|"

def rowMARKA : String := "| MARKA | OwnerA | shampoo | LIVE | 3 | False | False |"

def rowMARKB : String := "| MARKB | OwnerB | shampoo | LIVE | 3 | True | False |"

def rowGsOnly : String := "| MARKC | OwnerC | shampoo | LIVE | 3 | False | True |"

/-- Claim C7 counterexample: the row-filter does not implement
"keep iff Class Match OR Goods & Services Match".  (1) A data row in
the template shape whose Goods & Services Match column is `True` (and
Class Match `False`) is dropped: because the row ends with `|`, the
last split field `parts[-1]` is the empty string, so the
goods/services column is never consulted.  (2) A table separator row
(`|---|...`) splits into ≥ 7 fields, fails the header test and
contains no `true`, so it is dropped as well, contradicting
"header/separator rows always pass through". -/
theorem claim_C7_counterexample :
    cellIsTrue ((splitChar '|' rowGsOnly).getD ((splitChar '|' rowGsOnly).length - 2) "") =
      true ∧
    keepLine rowGsOnly = false ∧
    keepLine rowSepC7 = false := by
  refine ⟨by decide, by decide, by decide⟩

/-- Claim C7 (amended): for every table line that ends in `|` (so its
last split field is empty), has at least 7 split fields and fails the
header test, the filter's decision equals the `Class Match` test alone
— `"true"` occurring case-insensitively in the third-from-last split
field — and the Goods & Services Match column has no influence; header
rows always pass; and on the spec's concrete instance (template-shaped
rows MARKA with class_match=False, gs_match=False and MARKB with
class_match=True, gs_match=False) exactly the MARKB and header rows
are kept. -/
theorem claim_C7_amended :
    (∀ line : String,
        line.data.contains '|' = true →
        7 ≤ (splitChar '|' line).length →
        containsSub line "Class Match" = false →
        containsSub line "Trademark" = false →
        (splitChar '|' line).getLast? = some "" →
        keepLine line =
          cellIsTrue ((splitChar '|' line).getD ((splitChar '|' line).length - 3) "")) ∧
    keepLine rowHeaderC7 = true ∧
    keepLine rowMARKA = false ∧
    keepLine rowMARKB = true := by
  refine ⟨?_, by decide, by decide, by decide⟩
  intro line hpipe hlen hclass htm hlast
  have hlast' : (splitChar '|' line).getD ((splitChar '|' line).length - 1) "" = "" := by
    rw [List.getD_eq_getElem?_getD, ← List.getLast?_eq_getElem?, hlast]
    rfl
  rw [keepLine, if_pos hpipe, if_pos hlen,
    if_neg (by rw [hclass, htm]; exact Bool.false_ne_true ∘ id), hlast']
  simp [cellIsTrue, containsSub, pyStrip, pyLower]

/-- Witness for the general part of `claim_C7_amended`: instantiated at
the `rowGsOnly` data row, whose Class Match column reads `False`, the
filter's decision is `false`. -/
theorem claim_C7_amended_witness :
    keepLine rowGsOnly =
      cellIsTrue ((splitChar '|' rowGsOnly).getD ((splitChar '|' rowGsOnly).length - 3) "") := by
  have h := claim_C7_amended
  exact h.1 rowGsOnly (by decide) (by decide) (by decide) (by decide) (by decide)

/-- Claim C8 (code bug, app.py line 39): when the string-typed
`conflicts_array` fails strict JSON parsing (`jsonParsed = none`) and
its stripped form starts with `[`, the source executes
`eval(conflicts_array)` on the untrusted string — the `viaEval` branch
— rather than dropping it.  Only strings that do *not* start with `[`
are dropped to the empty list, and the parsed-JSON branch is used
exactly when `json.loads` succeeds. -/
theorem claim_C8_eval_on_unparseable_string :
    parse_conflicts_string "[not json]" none = StrParseOutcome.viaEval ∧
    parse_conflicts_string "not a list" none = StrParseOutcome.emptyFallback ∧
    (∀ conflicts : List MarkEntry,
        parse_conflicts_string "[not json]" (some conflicts) =
          StrParseOutcome.viaJson conflicts) := by
  exact ⟨by decide, by decide, fun _ => rfl⟩

/-- Claim C4: every stage is total in its failure handling.  On each of
the four failure branches (LLM call error, empty choices, no JSON
block, JSON decode error) each stage returns its stage-specific
well-typed default — all collections empty, booleans false, placeholder
explanation strings — and with every stage failing, the pipeline still
assembles a complete `OpinionStructure` from those defaults. -/
theorem claim_C4_stage_totality :
    (∀ (m c g : String) (rc : List MarkEntry) (llm : LLMOutcome Classification),
        llm.isFail = true →
        (section_one_analysis m c g rc llm).identical_marks = [] ∧
        (section_one_analysis m c g rc llm).one_letter_marks = [] ∧
        (section_one_analysis m c g rc llm).two_letter_marks = [] ∧
        (section_one_analysis m c g rc llm).similar_marks = [] ∧
        (section_one_analysis m c g rc llm).identified_coordinated_classes = some [] ∧
        (section_one_analysis m c g rc llm).crowded_field.map S1CrowdedField.is_crowded =
          some false) ∧
    (∀ (m c g : String) (rc : List MarkEntry) (llm : LLMOutcome ComponentResults),
        llm.isFail = true →
        (section_two_analysis m c g rc llm).components = some [] ∧
        (section_two_analysis m c g rc llm).identified_coordinated_classes = some [] ∧
        (section_two_analysis m c g rc llm).crowded_field.map CrowdedField.is_crowded =
          some (some false)) ∧
    (∀ (m c g : String) (s1 : SectionOneOutput) (s2 : Option ComponentResults)
        (llm : LLMOutcome SectionThreeResults),
        llm.isFail = true →
        section_three_analysis m c g s1 s2 llm =
          sectionThreeDefault (skipScan s1.similar_marks)) ∧
    (∀ (conflicts : List MarkEntry) (pn pc pgs : String),
        generate_trademark_opinion conflicts pn pc pgs
            LLMOutcome.callError LLMOutcome.callError LLMOutcome.callError =
          { proposed_name := pn, proposed_class := pc, proposed_goods_services := pgs,
            excluded_count := (validate_trademark_relevance conflicts pgs).2,
            section_one := sectionOneDefault "Error occurred during analysis"
              "Error occurred during analysis",
            section_two := sectionTwoDefault "Error occurred during analysis"
              "Error occurred during analysis",
            section_three := sectionThreeDefault (false, "") }) := by
  refine ⟨?_, ?_, ?_, ?_⟩
  · intro m c g rc llm hfail
    cases llm <;> simp_all [section_one_analysis, sectionOneDefault, LLMOutcome.isFail]
  · intro m c g rc llm hfail
    cases llm <;> simp_all [section_two_analysis, sectionTwoDefault, LLMOutcome.isFail]
  · intro m c g s1 s2 llm hfail
    cases llm <;> simp_all [section_three_analysis, LLMOutcome.isFail]
  · intro conflicts pn pc pgs
    rfl

/-- Witness for `claim_C4_stage_totality` at concrete failure
outcomes: a missing JSON block in section one and a JSON decode error
in section three (with an empty hit classification) produce the empty
defaults and the MEDIUM-LOW fallback risk levels. -/
theorem claim_C4_stage_totality_witness :
    (section_one_analysis "M" "3" "g" [] LLMOutcome.noJsonBlock).identical_marks = [] ∧
    (section_three_analysis "M" "3" "g" {} none LLMOutcome.jsonError).overall_risk.level_registration =
      "MEDIUM-LOW" := by
  have h := claim_C4_stage_totality
  refine ⟨(h.1 "M" "3" "g" [] LLMOutcome.noJsonBlock (by decide)).1, ?_⟩
  rw [h.2.2.1 "M" "3" "g" {} none LLMOutcome.jsonError (by decide)]
  rfl

/-- Classification payload in which the model reports one identical
mark for proposed mark `AQUA`. -/
def clIdentC1 : Classification := { identical_marks := [entryWith "AQUA"] }

/-- A model-proposed risk payload with both levels `HIGH`. -/
def riskHigh : SectionThreeResults :=
  { overall_risk := { level_registration := "HIGH", level_use := "HIGH" } }

/-- A full pipeline run: identical mark present, all three LLM calls
succeed, and the risk model proposes HIGH/HIGH. -/
def opC1 : OpinionStructure :=
  generate_trademark_opinion [] "AQUA" "3" "gds"
    (LLMOutcome.parsed clIdentC1) (LLMOutcome.parsed {}) (LLMOutcome.parsed riskHigh)

/-- Claim C1 counterexample: a run whose classification contains an
identical mark (confirmed by `consistency_check`: distance 0) but whose
risk-stage model output proposes HIGH/HIGH ends with levels HIGH/HIGH
in the final opinion — no deterministic MEDIUM-HIGH floor/ceiling is
applied on top of the model output. -/
theorem claim_C1_counterexample :
    opC1.section_one.identical_marks = [entryWith "AQUA"] ∧
    opC1.section_three.overall_risk.level_registration = "HIGH" ∧
    opC1.section_three.overall_risk.level_use = "HIGH" := by
  refine ⟨by decide, by decide, by decide⟩

/-- Claim C1 (amended): the risk rules of the spec live only in the
prompt text; in code `section_three_analysis` returns a successfully
parsed risk payload unchanged (whatever the identical-mark
classification), and the only deterministic level-setting is the
failure default, which is MEDIUM-HIGH/MEDIUM-HIGH when the
phonetic/semantic skip flag is set and MEDIUM-LOW/MEDIUM-LOW
otherwise — identical marks never force a level in code. -/
theorem claim_C1_amended :
    (∀ (m c g : String) (s1 : SectionOneOutput) (s2 : Option ComponentResults)
        (r : SectionThreeResults),
        section_three_analysis m c g s1 s2 (LLMOutcome.parsed r) = r) ∧
    (∀ (m c g : String) (s1 : SectionOneOutput) (s2 : Option ComponentResults)
        (llm : LLMOutcome SectionThreeResults),
        llm.isFail = true →
        section_three_analysis m c g s1 s2 llm =
          sectionThreeDefault (skipScan s1.similar_marks)) ∧
    (∀ (conflicts : List MarkEntry) (pn pc pgs : String)
        (llm1 : LLMOutcome Classification) (llm2 : LLMOutcome ComponentResults)
        (r : SectionThreeResults),
        (generate_trademark_opinion conflicts pn pc pgs llm1 llm2
            (LLMOutcome.parsed r)).section_three = r) := by
  refine ⟨fun _ _ _ _ _ _ => rfl, ?_, fun _ _ _ _ _ _ _ => rfl⟩
  intro m c g s1 s2 llm hfail
  cases llm <;> simp_all [section_three_analysis, LLMOutcome.isFail]

/-- Witness for `claim_C1_amended`: with an identical mark present in
section one and a failed risk call, the fallback levels are
MEDIUM-LOW, not MEDIUM-HIGH. -/
theorem claim_C1_amended_witness :
    section_three_analysis "AQUA" "3" "g"
        { identical_marks := [entryWith "AQUA"] } none LLMOutcome.callError =
      sectionThreeDefault (false, "") := by
  exact (claim_C1_amended.2.1 "AQUA" "3" "g"
    { identical_marks := [entryWith "AQUA"] } none LLMOutcome.callError (by decide))

/-- A similar-mark entry with `similarity_type = Phonetic` and a class
match: the trigger of the skip rule. -/
def phonEntry : MarkEntry :=
  { mark := some "KAT", similarity_type := some "Phonetic", class_match := some true }

/-- Section-one payload whose similar bucket holds `phonEntry`. -/
def s1PayloadC3 : Classification := { similar_marks := [phonEntry] }

/-- A non-empty component-analysis payload. -/
def compEntryC3 : ComponentEntry := { component := some "AQUA", marks := some [emptyEntry] }

def compPayloadC3 : ComponentResults := { components := some [compEntryC3] }

/-- A model-proposed risk payload with both levels `LOW`. -/
def riskLow : SectionThreeResults :=
  { overall_risk := { level_registration := "LOW", level_use := "LOW" } }

/-- A full pipeline run in which the skip condition holds (a Phonetic
similar mark with class match) and all three LLM calls succeed. -/
def opC3 : OpinionStructure :=
  generate_trademark_opinion [] "CAT" "3" "gds"
    (LLMOutcome.parsed s1PayloadC3) (LLMOutcome.parsed compPayloadC3)
    (LLMOutcome.parsed riskLow)

/-- Claim C3 counterexample: in a run where a similar-mark entry has
`similarity_type = Phonetic` and `class_match = True` (the skip flag
fires, with its fixed rationale string), the component-analysis stage
is nevertheless executed — the opinion's section two holds the repaired
component payload, not a skip marker — and the risk levels are whatever
the model proposed (here LOW/LOW), not the pre-set
MEDIUM-HIGH/MEDIUM-HIGH. -/
theorem claim_C3_counterexample :
    skipScan opC3.section_one.similar_marks =
      (true, "Found a Phonetic or Semantic similar mark with coordinated class match") ∧
    opC3.section_two.components = some [backfillComponent 0 compEntryC3] ∧
    opC3.section_three.overall_risk.level_registration = "LOW" ∧
    opC3.section_three.overall_risk.level_use = "LOW" := by
  refine ⟨by decide, by decide, by decide, by decide⟩

/-- Claim C3 (amended): the Phonetic/Semantic-with-class-match
condition only sets the skip flag (with its fixed rationale strings)
inside `section_three_analysis`; the flag is set iff such an entry
exists in the similar bucket; the component stage itself is executed
unconditionally by the pipeline and its results are included in the
opinion; and the MEDIUM-HIGH/MEDIUM-HIGH pre-set applies only to the
risk stage's failure default when the flag is set. -/
theorem claim_C3_amended :
    (∀ l : List MarkEntry,
        (skipScan l).1 = true ↔
          ∃ e ∈ l,
            (e.similarity_type = some "Phonetic" ∨ e.similarity_type = some "Semantic") ∧
            e.class_match.getD false = true) ∧
    (∀ (conflicts : List MarkEntry) (pn pc pgs : String)
        (llm1 : LLMOutcome Classification) (llm2 : LLMOutcome ComponentResults)
        (llm3 : LLMOutcome SectionThreeResults),
        (generate_trademark_opinion conflicts pn pc pgs llm1 llm2 llm3).section_two =
          section_two_analysis pn pc pgs
            (validate_trademark_relevance conflicts pgs).1 llm2) ∧
    (∀ (m c g : String) (s1 : SectionOneOutput) (s2 : Option ComponentResults)
        (llm : LLMOutcome SectionThreeResults),
        llm.isFail = true → (skipScan s1.similar_marks).1 = true →
        (section_three_analysis m c g s1 s2 llm).overall_risk.level_registration =
            "MEDIUM-HIGH" ∧
        (section_three_analysis m c g s1 s2 llm).overall_risk.level_use = "MEDIUM-HIGH") := by
  refine ⟨?_, fun _ _ _ _ _ _ _ => rfl, ?_⟩
  · intro l
    induction l with
    | nil => simp [skipScan]
    | cons e rest ih =>
        by_cases hst : e.similarity_type = some "Phonetic" ∨ e.similarity_type = some "Semantic"
        · cases hcm : e.class_match.getD false with
          | true =>
              cases hgsm : e.goods_services_match.getD false with
              | true => simp [skipScan, hst, hcm, hgsm]
              | false => simp [skipScan, hst, hcm, hgsm]
          | false =>
              simp only [skipScan, if_pos hst, hcm, Bool.false_and, Bool.false_eq_true,
                if_neg, if_false]
              rw [ih]
              constructor
              · rintro ⟨a, ha, hp⟩; exact ⟨a, List.mem_cons_of_mem e ha, hp⟩
              · rintro ⟨a, ha, hp⟩
                rcases List.mem_cons.mp ha with rfl | ha
                · rw [hcm] at hp; cases hp.2
                · exact ⟨a, ha, hp⟩
        · simp only [skipScan, if_neg hst]
          rw [ih]
          constructor
          · rintro ⟨a, ha, hp⟩; exact ⟨a, List.mem_cons_of_mem e ha, hp⟩
          · rintro ⟨a, ha, hp⟩
            rcases List.mem_cons.mp ha with rfl | ha
            · exact absurd hp.1 hst
            · exact ⟨a, ha, hp⟩
  · intro m c g s1 s2 llm hfail hskip
    cases llm <;>
      simp_all [section_three_analysis, sectionThreeDefault, LLMOutcome.isFail, hskip]

/-- Witness for `claim_C3_amended`: with the Phonetic class-match entry
in section one and a failed risk call, the fallback levels are
MEDIUM-HIGH/MEDIUM-HIGH. -/
theorem claim_C3_amended_witness :
    (section_three_analysis "CAT" "3" "g" { similar_marks := [phonEntry] } none
        LLMOutcome.jsonError).overall_risk.level_registration = "MEDIUM-HIGH" ∧
    (section_three_analysis "CAT" "3" "g" { similar_marks := [phonEntry] } none
        LLMOutcome.jsonError).overall_risk.level_use = "MEDIUM-HIGH" := by
  exact claim_C3_amended.2.2 "CAT" "3" "g" { similar_marks := [phonEntry] } none
    LLMOutcome.jsonError (by decide) (by decide)

end TrademarkApp
